import Mathlib

/-!
Shallow embedding of the Kibana new-platform `Server` orchestrator
(`src/core/server/server.ts` in the repository slice) and of the lens
xy-visualization expression-function definitions
(`x-pack/legacy/plugins/lens/public/xy_visualization_plugin/types.ts`).

The `Server` class sequences the lifecycle (`setup` / `start` / `stop`) of a
fixed set of services.  Each service operation is asynchronous and may reject;
we model a service operation as an `Except Err`-valued field of an environment
record, and each lifecycle method of `Server` as a function from that
environment to the list of service operations it actually invoked (a trace, in
invocation order) together with the propagated result.  Sequential `await`
semantics — each step awaited before the next, a rejection propagating
uncaught — become: the first `.error` stops the run, later operations never
appear in the trace.
-/

namespace KbnServer

/-- Errors raised by service operations (opaque). -/
abbrev Err := String

/-- Result of `legacy.discoverPlugins()` (opaque contract token). -/
structure LegacyPlugins where
  token : Nat
deriving DecidableEq

/-- Setup contract of the context service (opaque). -/
structure ContextSetupContract where
  token : Nat
deriving DecidableEq

/-- Setup contract of the http service (opaque). -/
structure HttpSetupContract where
  token : Nat
deriving DecidableEq

/-- Setup contract of the capabilities service (opaque). -/
structure CapabilitiesSetupContract where
  token : Nat
deriving DecidableEq

/-- Setup contract of the elasticsearch service (opaque). -/
structure ElasticsearchSetupContract where
  token : Nat
deriving DecidableEq

/-- Setup contract of the ui-settings service (opaque). -/
structure UiSettingsSetupContract where
  token : Nat
deriving DecidableEq

/-- Setup contract of the saved-objects service (opaque). -/
structure SavedObjectsSetupContract where
  token : Nat
deriving DecidableEq

/-- Setup contract of the plugins service (opaque). -/
structure PluginsSetupContract where
  token : Nat
deriving DecidableEq

/-- The `InternalCoreSetup` record `Server.setup()` assembles and returns
(`server.ts` lines 132-139). -/
structure InternalCoreSetup where
  capabilities : CapabilitiesSetupContract
  context : ContextSetupContract
  elasticsearch : ElasticsearchSetupContract
  http : HttpSetupContract
  uiSettings : UiSettingsSetupContract
  savedObjects : SavedObjectsSetupContract
deriving DecidableEq

/-- Keys of the plugin-dependency map handed to `context.setup`: either a
discovered new-platform plugin (identified by name) or the legacy bridge's
own identifier `this.legacy.legacyId` (a symbol, hence never equal to a
plugin name). -/
inductive CtxKey where
  | plugin (name : String) : CtxKey
  | legacyId : CtxKey
deriving DecidableEq

/-- The plugin-dependency map returned by `plugins.discover()`:
a `Map<PluginName, PluginName[]>`, i.e. an association list with distinct
keys in insertion order. -/
abbrev PluginDeps := List (String × List String)

/-- One `map.set(k, v)` step of a JavaScript `Map`: if the key is present its
value is replaced in place (insertion position kept), otherwise the entry is
appended. -/
def jsMapInsert {K V : Type} [DecidableEq K] (m : List (K × V)) (k : K) (v : V) :
    List (K × V) :=
  if m.any (fun p => p.1 = k) then
    m.map (fun p => if p.1 = k then (k, v) else p)
  else
    m ++ [(k, v)]

/-- `new Map(entries)`: the entries are inserted left to right. -/
def jsMapOfList {K V : Type} [DecidableEq K] (l : List (K × V)) : List (K × V) :=
  l.foldl (fun m p => jsMapInsert m p.1 p.2) []

/-- The argument `Server.setup()` passes to `this.context.setup`
(`server.ts` lines 100-109):
`new Map([...pluginDependencies, [this.legacy.legacyId, [...pluginDependencies.keys()]]])`. -/
def contextDependencyMap (deps : PluginDeps) : List (CtxKey × List CtxKey) :=
  jsMapOfList
    ((deps.map (fun p => (CtxKey.plugin p.1, p.2.map CtxKey.plugin))) ++
      [(CtxKey.legacyId, deps.map (fun p => CtxKey.plugin p.1))])

/-- The service operations `Server.setup()` invokes, with the result each one
produces.  An `Except Err _` field models an awaited asynchronous call that
may reject; `capabilities.setup` is invoked synchronously (no `await` at
`server.ts` line 117) and is therefore total here. -/
structure SetupEnv where
  pluginsDiscover : Except Err PluginDeps
  legacyDiscoverPlugins : Except Err LegacyPlugins
  ensureValidConfiguration : LegacyPlugins → Except Err Unit
  contextSetup : List (CtxKey × List CtxKey) → Except Err ContextSetupContract
  httpSetup : ContextSetupContract → Except Err HttpSetupContract
  capabilitiesSetup : HttpSetupContract → CapabilitiesSetupContract
  elasticsearchSetup : HttpSetupContract → Except Err ElasticsearchSetupContract
  uiSettingsSetup : HttpSetupContract → Except Err UiSettingsSetupContract
  savedObjectsSetup : ElasticsearchSetupContract → LegacyPlugins →
    Except Err SavedObjectsSetupContract
  pluginsSetup : InternalCoreSetup → Except Err PluginsSetupContract
  legacySetup : InternalCoreSetup → PluginsSetupContract → Except Err Unit

/-- Observable events of one `Server.setup()` run, in invocation order.
`contextSetup` records the plugin-dependency map actually passed to
`this.context.setup`. -/
inductive SetupEv where
  | pluginsDiscover : SetupEv
  | legacyDiscoverPlugins : SetupEv
  | ensureValidConfiguration : SetupEv
  | contextSetup (pluginDependencies : List (CtxKey × List CtxKey)) : SetupEv
  | httpSetup : SetupEv
  | registerDefaultRoute : SetupEv
  | capabilitiesSetup : SetupEv
  | elasticsearchSetup : SetupEv
  | uiSettingsSetup : SetupEv
  | savedObjectsSetup : SetupEv
  | pluginsSetup : SetupEv
  | legacySetup : SetupEv
  | registerCoreContext : SetupEv
deriving DecidableEq

/-- Payload-free tag of a setup event, giving its position in the fixed
order `Server.setup()` follows. -/
def SetupEv.tag : SetupEv → Nat
  | .pluginsDiscover => 0
  | .legacyDiscoverPlugins => 1
  | .ensureValidConfiguration => 2
  | .contextSetup _ => 3
  | .httpSetup => 4
  | .registerDefaultRoute => 5
  | .capabilitiesSetup => 6
  | .elasticsearchSetup => 7
  | .uiSettingsSetup => 8
  | .savedObjectsSetup => 9
  | .pluginsSetup => 10
  | .legacySetup => 11
  | .registerCoreContext => 12

/-- The tag sequence of a complete, successful `Server.setup()` run. -/
def canonicalSetupTags : List Nat := [0, 1, 2, 3, 4, 5, 6, 7, 8, 9, 10, 11, 12]

/-- Run one awaited service operation: record its invocation, stop the whole
run if it rejects (the error propagates uncaught), otherwise continue with
its result. -/
def stepOp {ε α β : Type} (tr : List ε) (ev : ε) (x : Except Err α)
    (k : List ε → α → List ε × Except Err β) : List ε × Except Err β :=
  match x with
  | .error e => (tr ++ [ev], .error e)
  | .ok a => k (tr ++ [ev]) a

/-- `Server.setup()` (`server.ts` lines 90-151): discovery of new-platform and
legacy plugins, configuration validation, then the services' setups in the
fixed source order, threading each contract forward, registering the default
route right after http's setup and the core request context at the end. -/
def serverSetup (env : SetupEnv) : List SetupEv × Except Err InternalCoreSetup :=
  stepOp [] .pluginsDiscover env.pluginsDiscover fun tr pluginDependencies =>
  stepOp tr .legacyDiscoverPlugins env.legacyDiscoverPlugins fun tr legacyPlugins =>
  stepOp tr .ensureValidConfiguration (env.ensureValidConfiguration legacyPlugins)
    fun tr _ =>
  stepOp tr (.contextSetup (contextDependencyMap pluginDependencies))
      (env.contextSetup (contextDependencyMap pluginDependencies))
    fun tr contextServiceSetup =>
  stepOp tr .httpSetup (env.httpSetup contextServiceSetup) fun tr httpContract =>
  let tr := tr ++ [.registerDefaultRoute]
  let capabilitiesContract := env.capabilitiesSetup httpContract
  let tr := tr ++ [.capabilitiesSetup]
  stepOp tr .elasticsearchSetup (env.elasticsearchSetup httpContract)
    fun tr elasticsearchContract =>
  stepOp tr .uiSettingsSetup (env.uiSettingsSetup httpContract)
    fun tr uiSettingsContract =>
  stepOp tr .savedObjectsSetup (env.savedObjectsSetup elasticsearchContract legacyPlugins)
    fun tr savedObjectsContract =>
  let coreSetup : InternalCoreSetup :=
    { capabilities := capabilitiesContract
      context := contextServiceSetup
      elasticsearch := elasticsearchContract
      http := httpContract
      uiSettings := uiSettingsContract
      savedObjects := savedObjectsContract }
  stepOp tr .pluginsSetup (env.pluginsSetup coreSetup) fun tr pluginsContract =>
  stepOp tr .legacySetup (env.legacySetup coreSetup pluginsContract) fun tr _ =>
  (tr ++ [.registerCoreContext], .ok coreSetup)

/-- Start contract of the capabilities service (opaque). -/
structure CapabilitiesStartContract where
  token : Nat
deriving DecidableEq

/-- Start contract of the saved-objects service (opaque). -/
structure SavedObjectsStartContract where
  token : Nat
deriving DecidableEq

/-- Start contract of the plugins service (opaque). -/
structure PluginsStartContract where
  token : Nat
deriving DecidableEq

/-- The `coreStart` record `Server.start()` assembles and returns
(`server.ts` lines 162-166). -/
structure CoreStart where
  capabilities : CapabilitiesStartContract
  savedObjects : SavedObjectsStartContract
  plugins : PluginsStartContract
deriving DecidableEq

/-- The service operations `Server.start()` invokes.  `capabilities.start()`
is synchronous (no `await` at `server.ts` line 156); `plugins.start` receives
the capabilities and saved-objects start contracts; `legacy.start` receives
the assembled `coreStart`. -/
structure StartEnv where
  savedObjectsStart : Except Err SavedObjectsStartContract
  capabilitiesStart : CapabilitiesStartContract
  pluginsStart : CapabilitiesStartContract → SavedObjectsStartContract →
    Except Err PluginsStartContract
  legacyStart : CoreStart → Except Err Unit
  httpStart : Except Err Unit

/-- Observable events of one `Server.start()` run, in invocation order.
`pluginsStart` and `legacyStart` record the contracts actually passed. -/
inductive StartEv where
  | savedObjectsStart : StartEv
  | capabilitiesStart : StartEv
  | pluginsStart (capabilities : CapabilitiesStartContract)
      (savedObjects : SavedObjectsStartContract) : StartEv
  | legacyStart (core : CoreStart) : StartEv
  | httpStart : StartEv
deriving DecidableEq

/-- Payload-free tag of a start event, giving its position in the fixed
order `Server.start()` follows. -/
def StartEv.tag : StartEv → Nat
  | .savedObjectsStart => 0
  | .capabilitiesStart => 1
  | .pluginsStart _ _ => 2
  | .legacyStart _ => 3
  | .httpStart => 4

/-- The tag sequence of a complete, successful `Server.start()` run;
`http.start()` (tag 4) is last. -/
def canonicalStartTags : List Nat := [0, 1, 2, 3, 4]

/-- `Server.start()` (`server.ts` lines 153-175): saved-objects, capabilities
(synchronously), plugins (receiving both start contracts), the legacy bridge
(receiving `coreStart`), and finally `http.start()`.  Note that the function
consults no state recorded by `serverSetup`: the source class keeps no
lifecycle flag, so nothing here requires `setup` to have run. -/
def serverStart (env : StartEnv) : List StartEv × Except Err CoreStart :=
  stepOp [] .savedObjectsStart env.savedObjectsStart fun tr savedObjectsContract =>
  let capabilitiesContract := env.capabilitiesStart
  let tr := tr ++ [.capabilitiesStart]
  stepOp tr (.pluginsStart capabilitiesContract savedObjectsContract)
      (env.pluginsStart capabilitiesContract savedObjectsContract)
    fun tr pluginsContract =>
  let coreStart : CoreStart :=
    { capabilities := capabilitiesContract
      savedObjects := savedObjectsContract
      plugins := pluginsContract }
  stepOp tr (.legacyStart coreStart) (env.legacyStart coreStart) fun tr _ =>
  stepOp tr .httpStart env.httpStart fun tr _ =>
  (tr, .ok coreStart)

/-- The service operations `Server.stop()` invokes, each an awaited call that
may reject. -/
structure StopEnv where
  legacyStop : Except Err Unit
  pluginsStop : Except Err Unit
  savedObjectsStop : Except Err Unit
  elasticsearchStop : Except Err Unit
  httpStop : Except Err Unit

/-- Observable events of one `Server.stop()` run, in invocation order. -/
inductive StopEv where
  | legacyStop : StopEv
  | pluginsStop : StopEv
  | savedObjectsStop : StopEv
  | elasticsearchStop : StopEv
  | httpStop : StopEv
deriving DecidableEq

/-- `Server.stop()` (`server.ts` lines 177-185): stops legacy, plugins,
saved-objects, elasticsearch and http in that order, each awaited before the
next, with no error handling of its own. -/
def serverStop (env : StopEnv) : List StopEv × Except Err Unit :=
  stepOp [] .legacyStop env.legacyStop fun tr _ =>
  stepOp tr .pluginsStop env.pluginsStop fun tr _ =>
  stepOp tr .savedObjectsStop env.savedObjectsStop fun tr _ =>
  stepOp tr .elasticsearchStop env.elasticsearchStop fun tr _ =>
  stepOp tr .httpStop env.httpStop fun tr _ =>
  (tr, .ok ())

/-! ### The default route (`Server.registerDefaultRoute`, lines 187-192) -/

/-- The set of common HTTP methods supported by Kibana routing
(`RouteMethod` from the generated API documentation). -/
inductive RouteMethod where
  | get : RouteMethod
  | post : RouteMethod
  | put : RouteMethod
  | delete : RouteMethod
deriving DecidableEq

/-- An incoming HTTP request, identified opaquely; the default route's
handler never inspects it. -/
structure Request where
  id : Nat
deriving DecidableEq

/-- The response body `{ version: '0.0.1' }`. -/
structure VersionBody where
  version : String
deriving DecidableEq

/-- A route handler's response: either the success (200-equivalent) shape
produced by `res.ok(...)` or an error shape.  The default route's handler
only ever builds the former. -/
inductive KbnResponse where
  | ok (body : VersionBody) : KbnResponse
  | internalError (message : String) : KbnResponse
deriving DecidableEq

/-- The handler registered for `GET /core/`:
`async (context, req, res) => res.ok({ body: { version: '0.0.1' } })`. -/
def defaultRouteHandler (_context : Unit) (_req : Request) : KbnResponse :=
  KbnResponse.ok { version := "0.0.1" }

/-- A registered route: router base path, relative path, method, whether
input validation was requested, and the handler. -/
structure RegisteredRoute where
  routerBasePath : String
  path : String
  method : RouteMethod
  validate : Bool
  handler : Unit → Request → KbnResponse

/-- The one route `Server.registerDefaultRoute` registers: a router created
with base path `/core`, and `router.get({ path: '/', validate: false }, ...)`. -/
def defaultRoute : RegisteredRoute :=
  { routerBasePath := "/core"
    path := "/"
    method := RouteMethod.get
    validate := false
    handler := defaultRouteHandler }

/-! ### The core request context (`Server.registerCoreContext`, lines 194-219) -/

/-- An elasticsearch cluster client as emitted by `adminClient$` /
`dataClient$` (opaque identity). -/
structure ElasticsearchClient where
  id : Nat
deriving DecidableEq

/-- Modelled from the spec: a scoped client is "a backend-access handle bound
to one originating request" — `client.asScoped(req)` pairs the client with the
request it is scoped to, so different requests yield different handles.
(`asScoped` belongs to the elasticsearch service, which is outside this
slice.) -/
structure ScopedClusterClient where
  client : ElasticsearchClient
  req : Request
deriving DecidableEq

/-- `client.asScoped(req)`. -/
def ElasticsearchClient.asScoped (c : ElasticsearchClient) (r : Request) :
    ScopedClusterClient :=
  { client := c, req := r }

/-- Modelled from the spec: `savedObjects.getScopedClient(req)` returns a
saved-objects client scoped to the originating request (the saved-objects
service itself is outside this slice). -/
structure SavedObjectsClient where
  req : Request
deriving DecidableEq

/-- `coreSetup.savedObjects.getScopedClient(req)`. -/
def getScopedClient (r : Request) : SavedObjectsClient :=
  { req := r }

/-- Modelled from the spec: `uiSettings.asScopedToClient(savedObjectsClient)`
returns a ui-settings client bound to the given saved-objects client (the
ui-settings service itself is outside this slice). -/
structure UiSettingsClient where
  soClient : SavedObjectsClient
deriving DecidableEq

/-- `coreSetup.uiSettings.asScopedToClient(savedObjectsClient)`. -/
def asScopedToClient (c : SavedObjectsClient) : UiSettingsClient :=
  { soClient := c }

/-- What the core-context handler consumes from `coreSetup`: the two
independent asynchronous client streams `elasticsearch.adminClient$` and
`elasticsearch.dataClient$`, modelled as the sequences of clients they emit;
`stream.pipe(take(1)).toPromise()` resolves with the first emitted value,
i.e. the value at index 0. -/
structure CoreContextDeps where
  adminClientStream : Nat → ElasticsearchClient
  dataClientStream : Nat → ElasticsearchClient

/-- The `savedObjects` group of the core request context. -/
structure CoreCtxSavedObjects where
  client : SavedObjectsClient
deriving DecidableEq

/-- The `elasticsearch` group of the core request context. -/
structure CoreCtxElasticsearch where
  adminClient : ScopedClusterClient
  dataClient : ScopedClusterClient
deriving DecidableEq

/-- The `uiSettings` group of the core request context. -/
structure CoreCtxUiSettings where
  client : UiSettingsClient
deriving DecidableEq

/-- `RequestHandlerContext['core']`: exactly the four capability groups the
handler returns — `savedObjects.client`, `elasticsearch.adminClient`,
`elasticsearch.dataClient`, `uiSettings.client`. -/
structure RequestHandlerContextCore where
  savedObjects : CoreCtxSavedObjects
  elasticsearch : CoreCtxElasticsearch
  uiSettings : CoreCtxUiSettings
deriving DecidableEq

/-- The context provider `Server.registerCoreContext` registers under the name
`core`: it awaits the first emitted admin and data clients, builds a
request-scoped saved-objects client, and returns the four groups, the
ui-settings client being bound to that same saved-objects client. -/
def coreContextHandler (deps : CoreContextDeps) (_context : Unit) (req : Request) :
    RequestHandlerContextCore :=
  let adminClient := deps.adminClientStream 0
  let dataClient := deps.dataClientStream 0
  let savedObjectsClient := getScopedClient req
  { savedObjects := { client := savedObjectsClient }
    elasticsearch :=
      { adminClient := adminClient.asScoped req
        dataClient := dataClient.asScoped req }
    uiSettings := { client := asScopedToClient savedObjectsClient } }

end KbnServer

namespace LensXy

/-!
Embedding of the lens xy-visualization expression functions
(`x-pack/legacy/plugins/lens/public/xy_visualization_plugin/types.ts`).
Each `fn` returns `{ type: '...', ...args }`: its argument record with the
one added `type` field.
-/

/-- `Position` from `@elastic/charts`. -/
inductive Position where
  | top : Position
  | right : Position
  | bottom : Position
  | left : Position
deriving DecidableEq

/-- `LegendConfig`: arguments of the `lens_xy_legendConfig` function. -/
structure LegendConfig where
  isVisible : Bool
  position : Position
deriving DecidableEq

/-- `LegendConfigResult = LegendConfig & { type: 'lens_xy_legendConfig' }`. -/
structure LegendConfigResult where
  type : String
  isVisible : Bool
  position : Position
deriving DecidableEq

/-- `legendConfig.fn`: `(_context, args) => ({ type: 'lens_xy_legendConfig', ...args })`. -/
def legendConfigFn {γ : Type} (_context : γ) (args : LegendConfig) : LegendConfigResult :=
  { type := "lens_xy_legendConfig"
    isVisible := args.isVisible
    position := args.position }

/-- `XConfig`: arguments of the `lens_xy_xConfig` function (`title` and the
optional `hide` from `AxisConfig`, plus `accessor`). -/
structure XConfig where
  title : String
  hide : Option Bool
  accessor : String
deriving DecidableEq

/-- `XConfigResult = XConfig & { type: 'lens_xy_xConfig' }`. -/
structure XConfigResult where
  type : String
  title : String
  hide : Option Bool
  accessor : String
deriving DecidableEq

/-- `xConfig.fn`: `(_context, args) => ({ type: 'lens_xy_xConfig', ...args })`. -/
def xConfigFn {γ : Type} (_context : γ) (args : XConfig) : XConfigResult :=
  { type := "lens_xy_xConfig"
    title := args.title
    hide := args.hide
    accessor := args.accessor }

/-- `SeriesType`. -/
inductive SeriesType where
  | bar : SeriesType
  | line : SeriesType
  | area : SeriesType
  | barStacked : SeriesType
  | areaStacked : SeriesType
deriving DecidableEq

/-- `LayerArgs`: arguments of the `lens_xy_layer` function (`AxisConfig`
fields plus layer identification, accessors and the optional
`columnToLabel`). -/
structure LayerArgs where
  title : String
  hide : Option Bool
  layerId : String
  xAccessor : String
  accessors : List String
  seriesType : SeriesType
  splitAccessor : String
  columnToLabel : Option String
deriving DecidableEq

/-- `LayerConfigResult = LayerArgs & { type: 'lens_xy_layer' }`. -/
structure LayerConfigResult where
  type : String
  title : String
  hide : Option Bool
  layerId : String
  xAccessor : String
  accessors : List String
  seriesType : SeriesType
  splitAccessor : String
  columnToLabel : Option String
deriving DecidableEq

/-- `layerConfig.fn`: `(_context, args) => ({ type: 'lens_xy_layer', ...args })`. -/
def layerConfigFn {γ : Type} (_context : γ) (args : LayerArgs) : LayerConfigResult :=
  { type := "lens_xy_layer"
    title := args.title
    hide := args.hide
    layerId := args.layerId
    xAccessor := args.xAccessor
    accessors := args.accessors
    seriesType := args.seriesType
    splitAccessor := args.splitAccessor
    columnToLabel := args.columnToLabel }

end LensXy

namespace KbnServer

/-! ### Helper lemmas -/

/-- Folding `jsMapInsert` over entries whose keys are fresh (no key occurs
twice in `acc ++ l`) only appends: the JavaScript `Map` keeps every entry
unchanged, in order. -/
theorem foldl_jsMapInsert_of_nodup {K V : Type} [DecidableEq K] :
    ∀ (l acc : List (K × V)), (((acc ++ l).map Prod.fst).Nodup) →
      l.foldl (fun m p => jsMapInsert m p.1 p.2) acc = acc ++ l := by
  intro l
  induction l with
  | nil => intro acc _; simp
  | cons p rest ih =>
    intro acc h
    have hmem : p.1 ∉ acc.map Prod.fst := by
      simp only [List.map_append, List.map_cons, List.nodup_append] at h
      intro hmem
      exact h.2.2 hmem (List.mem_cons_self _ _)
    have hins : jsMapInsert acc p.1 p.2 = acc ++ [p] := by
      have hany : acc.any (fun q => q.1 = p.1) = false := by
        simp only [List.any_eq_false, decide_eq_true_eq]
        intro q hq hqk
        exact hmem (hqk ▸ List.mem_map_of_mem Prod.fst hq)
      simp [jsMapInsert, hany]
    have hre : ((acc ++ [p]) ++ rest).map Prod.fst = ((acc ++ p :: rest).map Prod.fst) := by
      simp
    calc (p :: rest).foldl (fun m q => jsMapInsert m q.1 q.2) acc
        = rest.foldl (fun m q => jsMapInsert m q.1 q.2) (jsMapInsert acc p.1 p.2) := by
          simp [List.foldl_cons]
      _ = rest.foldl (fun m q => jsMapInsert m q.1 q.2) (acc ++ [p]) := by rw [hins]
      _ = (acc ++ [p]) ++ rest := ih (acc ++ [p]) (by rw [hre]; exact h)
      _ = acc ++ p :: rest := by simp

/-- `new Map(entries)` over entries with pairwise distinct keys is the entry
list itself. -/
theorem jsMapOfList_eq_self {K V : Type} [DecidableEq K] (l : List (K × V))
    (h : (l.map Prod.fst).Nodup) : jsMapOfList l = l := by
  have := foldl_jsMapInsert_of_nodup l [] (by simpa using h)
  simpa [jsMapOfList] using this

/-- `CtxKey.plugin` is injective. -/
theorem ctxKey_plugin_injective : Function.Injective CtxKey.plugin := by
  intro a b h
  cases h
  rfl

/-- With distinct discovered plugin names, the dependency map built for
`context.setup` is the discovered map (every entry unchanged) extended with
exactly the one synthetic legacy entry listing every discovered plugin. -/
theorem contextDependencyMap_eq (deps : PluginDeps)
    (h : (deps.map Prod.fst).Nodup) :
    contextDependencyMap deps =
      (deps.map (fun p => (CtxKey.plugin p.1, p.2.map CtxKey.plugin))) ++
        [(CtxKey.legacyId, deps.map (fun p => CtxKey.plugin p.1))] := by
  apply jsMapOfList_eq_self
  have h1 : ((deps.map (fun p => (CtxKey.plugin p.1, p.2.map CtxKey.plugin))).map
      Prod.fst).Nodup := by
    have : (deps.map (fun p => (CtxKey.plugin p.1, p.2.map CtxKey.plugin))).map Prod.fst
        = (deps.map Prod.fst).map CtxKey.plugin := by
      simp [List.map_map, Function.comp]
    rw [this]
    exact h.map ctxKey_plugin_injective
  simp only [List.map_append, List.nodup_append]
  refine ⟨h1, by simp, ?_⟩
  intro x hx hy
  simp only [List.map_map, List.mem_map, Function.comp] at hx
  obtain ⟨p, _, hp⟩ := hx
  simp only [List.map_cons, List.map_nil, List.mem_singleton] at hy
  rw [hy] at hp
  exact CtxKey.noConfusion hp

end KbnServer

namespace KbnClaims

open KbnServer LensXy

/-- Claim C8: every request to the registered route `GET /core/` — created on
the `/core` router with relative path `/`, `validate: false`, so no input
validation — is answered by the success response `res.ok` with body exactly
`{ version: '0.0.1' }`, independent of the request; the handler has no error
path (it never builds a non-`ok` response). -/
theorem default_route_returns_version :
    defaultRoute.method = RouteMethod.get ∧
    defaultRoute.routerBasePath = "/core" ∧
    defaultRoute.path = "/" ∧
    defaultRoute.validate = false ∧
    ∀ (ctx : Unit) (req : Request),
      defaultRoute.handler ctx req = KbnResponse.ok { version := "0.0.1" } :=
  ⟨rfl, rfl, rfl, rfl, fun _ _ => rfl⟩

/-- Claim C10: each of the three lens expression functions `legendConfig.fn`,
`xConfig.fn` and `layerConfig.fn` returns exactly its argument record with a
single added `type` field (`lens_xy_legendConfig`, `lens_xy_xConfig`,
`lens_xy_layer` respectively), preserving every argument field unchanged, and
is independent of its context argument (even across context types). -/
theorem lens_expression_fns_add_type_and_preserve_args :
    ∀ {γ γ' : Type} (ctx : γ) (ctx' : γ'),
      (∀ args : LegendConfig,
        (legendConfigFn ctx args).type = "lens_xy_legendConfig" ∧
        (legendConfigFn ctx args).isVisible = args.isVisible ∧
        (legendConfigFn ctx args).position = args.position ∧
        legendConfigFn ctx args = legendConfigFn ctx' args) ∧
      (∀ args : XConfig,
        (xConfigFn ctx args).type = "lens_xy_xConfig" ∧
        (xConfigFn ctx args).title = args.title ∧
        (xConfigFn ctx args).hide = args.hide ∧
        (xConfigFn ctx args).accessor = args.accessor ∧
        xConfigFn ctx args = xConfigFn ctx' args) ∧
      (∀ args : LayerArgs,
        (layerConfigFn ctx args).type = "lens_xy_layer" ∧
        (layerConfigFn ctx args).title = args.title ∧
        (layerConfigFn ctx args).hide = args.hide ∧
        (layerConfigFn ctx args).layerId = args.layerId ∧
        (layerConfigFn ctx args).xAccessor = args.xAccessor ∧
        (layerConfigFn ctx args).accessors = args.accessors ∧
        (layerConfigFn ctx args).seriesType = args.seriesType ∧
        (layerConfigFn ctx args).splitAccessor = args.splitAccessor ∧
        (layerConfigFn ctx args).columnToLabel = args.columnToLabel ∧
        layerConfigFn ctx args = layerConfigFn ctx' args) :=
  fun _ _ =>
    ⟨fun _ => ⟨rfl, rfl, rfl, rfl⟩,
     fun _ => ⟨rfl, rfl, rfl, rfl, rfl⟩,
     fun _ => ⟨rfl, rfl, rfl, rfl, rfl, rfl, rfl, rfl, rfl, rfl⟩⟩

/-- Claim C6: the `core` request context exposes exactly the four capability
groups `savedObjects.client`, `elasticsearch.adminClient`,
`elasticsearch.dataClient`, `uiSettings.client` (the record type
`RequestHandlerContextCore` has exactly those leaves); the two elasticsearch
clients are the first emitted values of the admin and data client streams
scoped to the originating request, the saved-objects client is scoped to the
request, the ui-settings client is bound to that same saved-objects client,
and two distinct requests receive distinct scoped client instances in every
group. -/
theorem core_context_four_scoped_clients :
    ∀ (deps : CoreContextDeps) (ctx : Unit) (req : Request),
      (coreContextHandler deps ctx req).savedObjects.client = getScopedClient req ∧
      (coreContextHandler deps ctx req).elasticsearch.adminClient =
        (deps.adminClientStream 0).asScoped req ∧
      (coreContextHandler deps ctx req).elasticsearch.dataClient =
        (deps.dataClientStream 0).asScoped req ∧
      (coreContextHandler deps ctx req).uiSettings.client =
        asScopedToClient ((coreContextHandler deps ctx req).savedObjects.client) ∧
      (coreContextHandler deps ctx req).savedObjects.client.req = req ∧
      (coreContextHandler deps ctx req).elasticsearch.adminClient.req = req ∧
      (coreContextHandler deps ctx req).elasticsearch.dataClient.req = req ∧
      ∀ req' : Request, req ≠ req' →
        (coreContextHandler deps ctx req).savedObjects.client ≠
          (coreContextHandler deps ctx req').savedObjects.client ∧
        (coreContextHandler deps ctx req).elasticsearch.adminClient ≠
          (coreContextHandler deps ctx req').elasticsearch.adminClient ∧
        (coreContextHandler deps ctx req).elasticsearch.dataClient ≠
          (coreContextHandler deps ctx req').elasticsearch.dataClient ∧
        (coreContextHandler deps ctx req).uiSettings.client ≠
          (coreContextHandler deps ctx req').uiSettings.client := by
  intro deps ctx req
  refine ⟨rfl, rfl, rfl, rfl, rfl, rfl, rfl, ?_⟩
  intro req' hne
  refine ⟨?_, ?_, ?_, ?_⟩ <;>
    simp [coreContextHandler, getScopedClient, asScopedToClient,
      ElasticsearchClient.asScoped, hne]

/-- Concrete dependencies used by the C6 witness. -/
def wCoreDeps : CoreContextDeps :=
  { adminClientStream := fun _ => { id := 10 }
    dataClientStream := fun _ => { id := 20 } }

/-- Witness for claim C6 at two concrete distinct requests. -/
theorem core_context_four_scoped_clients_witness :
    (coreContextHandler wCoreDeps () { id := 0 }).savedObjects.client ≠
      (coreContextHandler wCoreDeps () { id := 1 }).savedObjects.client ∧
    (coreContextHandler wCoreDeps () { id := 0 }).savedObjects.client =
      getScopedClient { id := 0 } :=
  ⟨((core_context_four_scoped_clients wCoreDeps () { id := 0 }).2.2.2.2.2.2.2
      { id := 1 } (by decide)).1,
   (core_context_four_scoped_clients wCoreDeps () { id := 0 }).1⟩

/-- Claim C1: on every run of `Server.setup()`, the tag trace is a prefix of
the canonical order — so both plugin discovery calls (`plugins.discover`,
`legacy.discoverPlugins`) complete before any service's setup is invoked, and
the service setups that do occur follow the fixed order context → http →
(default route) → capabilities → elasticsearch → ui-settings → saved-objects
→ plugins → legacy — and a successful run performs exactly the full canonical
sequence. -/
theorem setup_discovery_first_and_fixed_order (env : SetupEnv) :
    ((serverSetup env).1.map SetupEv.tag) <+: canonicalSetupTags ∧
    ∀ r, (serverSetup env).2 = .ok r →
      (serverSetup env).1.map SetupEv.tag = canonicalSetupTags := by
  unfold serverSetup
  cases h1 : env.pluginsDiscover with
  | error e =>
    simp only [stepOp]
    exact ⟨by decide, fun r hr => Except.noConfusion hr⟩
  | ok deps =>
    simp only [stepOp, List.nil_append]
    cases h2 : env.legacyDiscoverPlugins with
    | error e =>
      simp only [stepOp]
      exact ⟨by decide, fun r hr => Except.noConfusion hr⟩
    | ok lp =>
      simp only [stepOp]
      cases h3 : env.ensureValidConfiguration lp with
      | error e =>
        simp only [stepOp]
        exact ⟨by decide, fun r hr => Except.noConfusion hr⟩
      | ok u0 =>
        simp only [stepOp]
        cases h4 : env.contextSetup (contextDependencyMap deps) with
        | error e =>
          simp only [stepOp]
          exact ⟨by
            simp only [List.map_append, List.map_cons, List.map_nil, SetupEv.tag]
            decide, fun r hr => Except.noConfusion hr⟩
        | ok ctxc =>
          simp only [stepOp]
          cases h5 : env.httpSetup ctxc with
          | error e =>
            simp only [stepOp]
            exact ⟨by
              simp only [List.map_append, List.map_cons, List.map_nil, SetupEv.tag]
              decide, fun r hr => Except.noConfusion hr⟩
          | ok httpc =>
            simp only [stepOp]
            cases h6 : env.elasticsearchSetup httpc with
            | error e =>
              simp only [stepOp]
              exact ⟨by
                simp only [List.map_append, List.map_cons, List.map_nil,
                  SetupEv.tag]
                decide, fun r hr => Except.noConfusion hr⟩
            | ok esc =>
              simp only [stepOp]
              cases h7 : env.uiSettingsSetup httpc with
              | error e =>
                simp only [stepOp]
                exact ⟨by
                  simp only [List.map_append, List.map_cons, List.map_nil,
                    SetupEv.tag]
                  decide, fun r hr => Except.noConfusion hr⟩
              | ok uic =>
                simp only [stepOp]
                cases h8 : env.savedObjectsSetup esc lp with
                | error e =>
                  simp only [stepOp]
                  exact ⟨by
                    simp only [List.map_append, List.map_cons, List.map_nil,
                      SetupEv.tag]
                    decide, fun r hr => Except.noConfusion hr⟩
                | ok soc =>
                  simp only [stepOp]
                  cases h9 : env.pluginsSetup
                      (InternalCoreSetup.mk (env.capabilitiesSetup httpc) ctxc
                        esc httpc uic soc) with
                  | error e =>
                    simp only [stepOp]
                    exact ⟨by
                      simp only [List.map_append, List.map_cons, List.map_nil,
                        SetupEv.tag]
                      decide, fun r hr => Except.noConfusion hr⟩
                  | ok pc =>
                    simp only [stepOp]
                    cases h10 : env.legacySetup
                        (InternalCoreSetup.mk (env.capabilitiesSetup httpc) ctxc
                          esc httpc uic soc) pc with
                    | error e =>
                      simp only [stepOp]
                      exact ⟨by
                        simp only [List.map_append, List.map_cons, List.map_nil,
                          SetupEv.tag]
                        decide, fun r hr => Except.noConfusion hr⟩
                    | ok u1 =>
                      simp only [stepOp]
                      constructor
                      · simp only [List.map_append, List.map_cons, List.map_nil,
                          SetupEv.tag]
                        decide
                      · intro r hr
                        simp only [List.map_append, List.map_cons, List.map_nil,
                          SetupEv.tag]
                        decide

/-- Concrete setup environment in which discovery, validation and every
service setup succeed. -/
def wSetupEnv : SetupEnv :=
  { pluginsDiscover := .ok [("alpha", []), ("beta", ["alpha"])]
    legacyDiscoverPlugins := .ok ⟨0⟩
    ensureValidConfiguration := fun _ => .ok ()
    contextSetup := fun _ => .ok ⟨1⟩
    httpSetup := fun _ => .ok ⟨2⟩
    capabilitiesSetup := fun _ => ⟨3⟩
    elasticsearchSetup := fun _ => .ok ⟨4⟩
    uiSettingsSetup := fun _ => .ok ⟨5⟩
    savedObjectsSetup := fun _ _ => .ok ⟨6⟩
    pluginsSetup := fun _ => .ok ⟨7⟩
    legacySetup := fun _ _ => .ok () }

/-- Witness for claim C1 at a concrete environment. -/
theorem setup_discovery_first_and_fixed_order_witness :
    (serverSetup wSetupEnv).1.map SetupEv.tag = canonicalSetupTags :=
  (setup_discovery_first_and_fixed_order wSetupEnv).2
    (InternalCoreSetup.mk ⟨3⟩ ⟨1⟩ ⟨4⟩ ⟨2⟩ ⟨5⟩ ⟨6⟩) rfl

/-- Claim C2: when configuration validation fails (`ensureValidConfiguration`
rejects), `Server.setup()` rejects with that very error after only the two
discovery calls and the validation call — no service setup event occurs, so
no service is even partially initialized (and `Server.setup` never invokes
any start operation at all: start events exist only in `serverStart`). -/
theorem setup_rejects_on_invalid_configuration (env : SetupEnv)
    (deps : PluginDeps) (lp : LegacyPlugins) (e : Err)
    (h1 : env.pluginsDiscover = .ok deps)
    (h2 : env.legacyDiscoverPlugins = .ok lp)
    (h3 : env.ensureValidConfiguration lp = .error e) :
    serverSetup env =
      ([SetupEv.pluginsDiscover, SetupEv.legacyDiscoverPlugins,
        SetupEv.ensureValidConfiguration], .error e) := by
  unfold serverSetup
  rw [h1]
  simp only [stepOp, List.nil_append]
  rw [h2]
  simp only [stepOp]
  rw [h3]
  simp [stepOp]

/-- Concrete setup environment whose configuration validation rejects. -/
def wBadConfigEnv : SetupEnv :=
  { wSetupEnv with ensureValidConfiguration := fun _ => .error "config invalid" }

/-- Witness for claim C2 at a concrete environment. -/
theorem setup_rejects_on_invalid_configuration_witness :
    serverSetup wBadConfigEnv =
      ([SetupEv.pluginsDiscover, SetupEv.legacyDiscoverPlugins,
        SetupEv.ensureValidConfiguration], .error "config invalid") :=
  setup_rejects_on_invalid_configuration wBadConfigEnv
    [("alpha", []), ("beta", ["alpha"])] ⟨0⟩ "config invalid" rfl rfl rfl

/-- Claim C7: whenever `Server.setup()` reaches `context.setup` (discovery and
validation succeeded; the discovered map has distinct keys, as a `Map` does),
the plugin-dependency map it passes is exactly the discovered map — every
discovered entry unchanged — extended with the single synthetic entry mapping
the legacy bridge's identifier to the list of every discovered plugin
identifier; and no other map is ever passed to `context.setup` in that run. -/
theorem setup_context_dependency_map_legacy_entry (env : SetupEnv)
    (deps : PluginDeps) (lp : LegacyPlugins)
    (h1 : env.pluginsDiscover = .ok deps)
    (h2 : env.legacyDiscoverPlugins = .ok lp)
    (h3 : env.ensureValidConfiguration lp = .ok ())
    (hnd : (deps.map Prod.fst).Nodup) :
    SetupEv.contextSetup
        ((deps.map (fun p => (CtxKey.plugin p.1, p.2.map CtxKey.plugin))) ++
          [(CtxKey.legacyId, deps.map (fun p => CtxKey.plugin p.1))])
      ∈ (serverSetup env).1 ∧
    ∀ m, SetupEv.contextSetup m ∈ (serverSetup env).1 →
      m = (deps.map (fun p => (CtxKey.plugin p.1, p.2.map CtxKey.plugin))) ++
        [(CtxKey.legacyId, deps.map (fun p => CtxKey.plugin p.1))] := by
  have hmap := contextDependencyMap_eq deps hnd
  unfold serverSetup
  rw [h1]
  simp only [stepOp, List.nil_append]
  rw [h2]
  simp only [stepOp]
  rw [h3]
  simp only [stepOp]
  rw [hmap]
  cases h4 : env.contextSetup
      ((deps.map (fun p => (CtxKey.plugin p.1, p.2.map CtxKey.plugin))) ++
        [(CtxKey.legacyId, deps.map (fun p => CtxKey.plugin p.1))]) with
  | error e =>
    simp only [stepOp]
    constructor
    · simp
    · intro m hm
      simp at hm
      exact hm
  | ok ctxc =>
    simp only [stepOp]
    cases h5 : env.httpSetup ctxc with
    | error e =>
      simp only [stepOp]
      constructor
      · simp
      · intro m hm
        simp at hm
        exact hm
    | ok httpc =>
      simp only [stepOp]
      cases h6 : env.elasticsearchSetup httpc with
      | error e =>
        simp only [stepOp]
        constructor
        · simp
        · intro m hm
          simp at hm
          exact hm
      | ok esc =>
        simp only [stepOp]
        cases h7 : env.uiSettingsSetup httpc with
        | error e =>
          simp only [stepOp]
          constructor
          · simp
          · intro m hm
            simp at hm
            exact hm
        | ok uic =>
          simp only [stepOp]
          cases h8 : env.savedObjectsSetup esc lp with
          | error e =>
            simp only [stepOp]
            constructor
            · simp
            · intro m hm
              simp at hm
              exact hm
          | ok soc =>
            simp only [stepOp]
            cases h9 : env.pluginsSetup
                (InternalCoreSetup.mk (env.capabilitiesSetup httpc) ctxc esc
                  httpc uic soc) with
            | error e =>
              simp only [stepOp]
              constructor
              · simp
              · intro m hm
                simp at hm
                exact hm
            | ok pc =>
              simp only [stepOp]
              cases h10 : env.legacySetup
                  (InternalCoreSetup.mk (env.capabilitiesSetup httpc) ctxc esc
                    httpc uic soc) pc with
              | error e =>
                simp only [stepOp]
                constructor
                · simp
                · intro m hm
                  simp at hm
                  exact hm
              | ok u1 =>
                simp only [stepOp]
                constructor
                · simp
                · intro m hm
                  simp at hm
                  exact hm

/-- Witness for claim C7 at a concrete environment with two discovered
plugins. -/
theorem setup_context_dependency_map_legacy_entry_witness :
    SetupEv.contextSetup
        (([("alpha", []), ("beta", ["alpha"])] :
            PluginDeps).map (fun p => (CtxKey.plugin p.1, p.2.map CtxKey.plugin)) ++
          [(CtxKey.legacyId,
            ([("alpha", []), ("beta", ["alpha"])] :
              PluginDeps).map (fun p => CtxKey.plugin p.1))])
      ∈ (serverSetup wSetupEnv).1 :=
  (setup_context_dependency_map_legacy_entry wSetupEnv
    [("alpha", []), ("beta", ["alpha"])] ⟨0⟩ rfl rfl rfl (by decide)).1

/-- Claim C3: `Server.start()` starts the services in the order saved-objects,
capabilities, plugins, legacy, http — the tag trace is always a prefix of the
canonical order, so `http.start()` (the point where network traffic is
accepted) is never invoked unless every preceding start resolved — and on a
successful run the full trace shows `plugins.start` receiving exactly the
capabilities and saved-objects start contracts and `http.start()` last. -/
theorem start_order_and_http_last (env : StartEnv) :
    ((serverStart env).1.map StartEv.tag) <+: canonicalStartTags ∧
    ∀ r, (serverStart env).2 = .ok r →
      ∃ so ps, env.savedObjectsStart = .ok so ∧
        env.pluginsStart env.capabilitiesStart so = .ok ps ∧
        r = CoreStart.mk env.capabilitiesStart so ps ∧
        (serverStart env).1 =
          [StartEv.savedObjectsStart, StartEv.capabilitiesStart,
           StartEv.pluginsStart env.capabilitiesStart so,
           StartEv.legacyStart r, StartEv.httpStart] := by
  unfold serverStart
  cases hso : env.savedObjectsStart with
  | error e =>
    simp only [stepOp]
    exact ⟨by
      simp only [List.map_append, List.map_cons, List.map_nil, StartEv.tag]
      decide, fun r hr => Except.noConfusion hr⟩
  | ok so =>
    simp only [stepOp, List.nil_append]
    cases hps : env.pluginsStart env.capabilitiesStart so with
    | error e =>
      simp only [stepOp]
      exact ⟨by
        simp only [List.map_append, List.map_cons, List.map_nil, StartEv.tag]
        decide, fun r hr => Except.noConfusion hr⟩
    | ok ps =>
      simp only [stepOp]
      cases hl : env.legacyStart (CoreStart.mk env.capabilitiesStart so ps) with
      | error e =>
        simp only [stepOp]
        exact ⟨by
          simp only [List.map_append, List.map_cons, List.map_nil, StartEv.tag]
          decide, fun r hr => Except.noConfusion hr⟩
      | ok u =>
        simp only [stepOp]
        cases hh : env.httpStart with
        | error e =>
          simp only [stepOp]
          exact ⟨by
            simp only [List.map_append, List.map_cons, List.map_nil, StartEv.tag]
            decide, fun r hr => Except.noConfusion hr⟩
        | ok u' =>
          simp only [stepOp]
          refine ⟨by
            simp only [List.map_append, List.map_cons, List.map_nil, StartEv.tag]
            decide, ?_⟩
          intro r hr
          have hr' : r = CoreStart.mk env.capabilitiesStart so ps :=
            (Except.ok.inj hr).symm
          exact ⟨so, ps, rfl, hps, hr', by simp [hr']⟩

/-- Concrete start environment in which every service start succeeds. -/
def wStartEnv : StartEnv :=
  { savedObjectsStart := .ok { token := 1 }
    capabilitiesStart := { token := 2 }
    pluginsStart := fun _ _ => .ok { token := 3 }
    legacyStart := fun _ => .ok ()
    httpStart := .ok () }

/-- Witness for claim C3 at a concrete environment. -/
theorem start_order_and_http_last_witness :
    ∃ so ps, wStartEnv.savedObjectsStart = .ok so ∧
      wStartEnv.pluginsStart wStartEnv.capabilitiesStart so = .ok ps ∧
      CoreStart.mk ⟨2⟩ ⟨1⟩ ⟨3⟩ = CoreStart.mk wStartEnv.capabilitiesStart so ps ∧
      (serverStart wStartEnv).1 =
        [StartEv.savedObjectsStart, StartEv.capabilitiesStart,
         StartEv.pluginsStart wStartEnv.capabilitiesStart so,
         StartEv.legacyStart (CoreStart.mk ⟨2⟩ ⟨1⟩ ⟨3⟩), StartEv.httpStart] :=
  (start_order_and_http_last wStartEnv).2 (CoreStart.mk ⟨2⟩ ⟨1⟩ ⟨3⟩) rfl

/-- Claim C4: on a run of `Server.stop()` in which no service's stop rejects,
the five stop operations are invoked in the order legacy, plugins,
saved-objects, elasticsearch, http — each awaited before the next, each
invoked exactly once — and `stop()` resolves. -/
theorem stop_order_all_services (env : StopEnv)
    (h1 : env.legacyStop = .ok ()) (h2 : env.pluginsStop = .ok ())
    (h3 : env.savedObjectsStop = .ok ()) (h4 : env.elasticsearchStop = .ok ())
    (h5 : env.httpStop = .ok ()) :
    serverStop env =
      ([StopEv.legacyStop, StopEv.pluginsStop, StopEv.savedObjectsStop,
        StopEv.elasticsearchStop, StopEv.httpStop], .ok ()) ∧
    ∀ ev : StopEv, (serverStop env).1.count ev = 1 := by
  have htr : serverStop env =
      ([StopEv.legacyStop, StopEv.pluginsStop, StopEv.savedObjectsStop,
        StopEv.elasticsearchStop, StopEv.httpStop], .ok ()) := by
    unfold serverStop
    rw [h1, h2, h3, h4, h5]
    simp [stepOp]
  refine ⟨htr, ?_⟩
  intro ev
  rw [htr]
  cases ev <;> decide

/-- Concrete stop environment in which every service stop succeeds. -/
def wStopEnv : StopEnv :=
  { legacyStop := .ok ()
    pluginsStop := .ok ()
    savedObjectsStop := .ok ()
    elasticsearchStop := .ok ()
    httpStop := .ok () }

/-- Witness for claim C4 at a concrete environment. -/
theorem stop_order_all_services_witness :
    serverStop wStopEnv =
      ([StopEv.legacyStop, StopEv.pluginsStop, StopEv.savedObjectsStop,
        StopEv.elasticsearchStop, StopEv.httpStop], .ok ()) :=
  (stop_order_all_services wStopEnv rfl rfl rfl rfl rfl).1

/-- Claim C5: if one service's stop rejects, `Server.stop()` rejects with that
very error and the stops of all later services in the sequence are never
invoked (the trace ends at the failing service; nothing is caught). -/
theorem stop_aborts_on_failure (env : StopEnv) (e : Err) :
    (env.legacyStop = .error e →
      serverStop env = ([StopEv.legacyStop], .error e)) ∧
    (env.legacyStop = .ok () → env.pluginsStop = .error e →
      serverStop env = ([StopEv.legacyStop, StopEv.pluginsStop], .error e)) ∧
    (env.legacyStop = .ok () → env.pluginsStop = .ok () →
      env.savedObjectsStop = .error e →
      serverStop env = ([StopEv.legacyStop, StopEv.pluginsStop,
        StopEv.savedObjectsStop], .error e)) ∧
    (env.legacyStop = .ok () → env.pluginsStop = .ok () →
      env.savedObjectsStop = .ok () → env.elasticsearchStop = .error e →
      serverStop env = ([StopEv.legacyStop, StopEv.pluginsStop,
        StopEv.savedObjectsStop, StopEv.elasticsearchStop], .error e)) ∧
    (env.legacyStop = .ok () → env.pluginsStop = .ok () →
      env.savedObjectsStop = .ok () → env.elasticsearchStop = .ok () →
      env.httpStop = .error e →
      serverStop env = ([StopEv.legacyStop, StopEv.pluginsStop,
        StopEv.savedObjectsStop, StopEv.elasticsearchStop,
        StopEv.httpStop], .error e)) := by
  refine ⟨?_, ?_, ?_, ?_, ?_⟩
  · intro h1
    unfold serverStop
    rw [h1]
    simp [stepOp]
  · intro h1 h2
    unfold serverStop
    rw [h1, h2]
    simp [stepOp]
  · intro h1 h2 h3
    unfold serverStop
    rw [h1, h2, h3]
    simp [stepOp]
  · intro h1 h2 h3 h4
    unfold serverStop
    rw [h1, h2, h3, h4]
    simp [stepOp]
  · intro h1 h2 h3 h4 h5
    unfold serverStop
    rw [h1, h2, h3, h4, h5]
    simp [stepOp]

/-- Concrete stop environment whose plugins stop rejects. -/
def wFailStopEnv : StopEnv :=
  { legacyStop := .ok ()
    pluginsStop := .error "plugins stop failed"
    savedObjectsStop := .ok ()
    elasticsearchStop := .ok ()
    httpStop := .ok () }

/-- Witness for claim C5: a failing plugins stop aborts the teardown after
two invocations. -/
theorem stop_aborts_on_failure_witness :
    serverStop wFailStopEnv =
      ([StopEv.legacyStop, StopEv.pluginsStop], .error "plugins stop failed") :=
  (stop_aborts_on_failure wFailStopEnv "plugins stop failed").2.1 rfl rfl

/-- Counterexample to claim C9 as stated: invoking `Server.start()` on a fresh
instance (no `setup()` has run — `serverStart` consults no state produced by
`serverSetup`, because the source class keeps no lifecycle flag) neither fails
nor is disallowed: with services whose starts succeed it runs to completion
and resolves with a `coreStart`. -/
theorem start_without_setup_succeeds :
    (serverStart wStartEnv).2 = .ok (CoreStart.mk ⟨2⟩ ⟨1⟩ ⟨3⟩) ∧
    (serverStart wStartEnv).1 =
      [StartEv.savedObjectsStart, StartEv.capabilitiesStart,
       StartEv.pluginsStart ⟨2⟩ ⟨1⟩,
       StartEv.legacyStart (CoreStart.mk ⟨2⟩ ⟨1⟩ ⟨3⟩), StartEv.httpStart] :=
  ⟨rfl, rfl⟩

/-- Claim C9 (amended): `Server.start()` enforces no lifecycle state machine —
it consults nothing recorded by `setup()`, and it resolves successfully
whenever the services' own start operations do, even on a fresh instance; the
strictly forward `setup → start → stop` ordering is a convention for the
caller, not a guard in the `Server` class. -/
theorem start_no_lifecycle_guard (env : StartEnv)
    (so : SavedObjectsStartContract) (ps : PluginsStartContract)
    (h1 : env.savedObjectsStart = .ok so)
    (h2 : env.pluginsStart env.capabilitiesStart so = .ok ps)
    (h3 : env.legacyStart (CoreStart.mk env.capabilitiesStart so ps) = .ok ())
    (h4 : env.httpStart = .ok ()) :
    (serverStart env).2 = .ok (CoreStart.mk env.capabilitiesStart so ps) := by
  unfold serverStart
  rw [h1]
  simp only [stepOp, List.nil_append]
  rw [h2]
  simp only [stepOp]
  rw [h3]
  simp only [stepOp]
  rw [h4]

/-- Witness for the amended claim C9 at a concrete environment. -/
theorem start_no_lifecycle_guard_witness :
    (serverStart wStartEnv).2 = .ok (CoreStart.mk ⟨2⟩ ⟨1⟩ ⟨3⟩) :=
  start_no_lifecycle_guard wStartEnv ⟨1⟩ ⟨3⟩ rfl rfl rfl rfl

end KbnClaims
